import Mathlib

/-!
Verification development for the LLM router repository
(`base.py`, `openai_client.py`, `anthropic_client.py`, `router.py`).

The Python code is shallowly embedded: messages are records of two strings,
Python exceptions are a record of a kind, a message and an optional chained
cause, and each adapter's `chat` is a function parametrised by the vendor
client (an arbitrary function), so that "the vendor is never invoked" is
expressed as the result being the same for every vendor function.
-/

namespace LLMRouterSpec

/-- A chat message: the Python dicts carry exactly the keys `role` and
`content` (the key-set check of `_validate_messages` is enforced here by the
record type itself). -/
structure Msg where
  role : String
  content : String
deriving DecidableEq, Repr

/-- The Python exception classes that the code raises or lets escape. -/
inductive PyExcKind where
  | valueError
  | runtimeError
  | exceptionBase
  | indexError
  | attributeError
  | vendorNative
deriving DecidableEq, Repr

/-- A raised Python exception: its class, its `str(e)` message, and the
message of the exception chained with `from e` (absent when no `from` was
used). -/
structure PyExc where
  kind : PyExcKind
  msg : String
  cause : Option String
deriving DecidableEq, Repr

/-- `ValueError(m)` raised without a chained cause. -/
def pyValueError (m : String) : PyExc := ⟨.valueError, m, none⟩

/-- Python's `str.strip()`: drop leading and trailing whitespace.  Defined
structurally on the character list so that it evaluates inside the kernel. -/
def pyStrip (s : String) : String :=
  ⟨((s.data.dropWhile Char.isWhitespace).reverse.dropWhile Char.isWhitespace).reverse⟩

/-- Python's `str.lower()`, defined structurally on the character list. -/
def pyLower (s : String) : String :=
  ⟨s.data.map Char.toLower⟩

/-- The loop body of `AnthropicProvider._convert_messages`: `acc` is the
`converted_messages` list built so far.  A user/assistant message is appended
as a fresh dict; a system message is prepended (with a blank-line separator)
to the content of `converted_messages[0]` when that first entry has role
`user`, and otherwise appended as a new user-role message; any other role
falls through the `if/elif` chain and is skipped. -/
def convertGo : List Msg → List Msg → List Msg
  | [], acc => acc
  | m :: ms, acc =>
    if m.role = "user" then
      convertGo ms (acc ++ [⟨"user", m.content⟩])
    else if m.role = "assistant" then
      convertGo ms (acc ++ [⟨"assistant", m.content⟩])
    else if m.role = "system" then
      match acc with
      | ⟨r, c⟩ :: rest =>
        if r = "user" then
          convertGo ms (⟨r, m.content ++ "\n\n" ++ c⟩ :: rest)
        else
          convertGo ms ((⟨r, c⟩ :: rest) ++ [⟨"user", m.content⟩])
      | [] => convertGo ms [⟨"user", m.content⟩]
    else
      convertGo ms acc

/-- `AnthropicProvider._convert_messages`. -/
def convertMessages (messages : List Msg) : List Msg :=
  convertGo messages []

/-- Folding the system messages of `ms` onto an initial first-user content
`c`: each system message, in processing order, prepends its content plus a
blank-line separator, so later system messages end up outermost. -/
def sysFold (ms : List Msg) (c : String) : String :=
  ms.foldl (fun acc m => if m.role = "system" then m.content ++ "\n\n" ++ acc else acc) c

/-- The non-system messages of `ms`, rebuilt the way the conversion loop
rebuilds them (fresh dicts with the recognised role); unrecognised roles are
dropped, exactly as the `if/elif` chain drops them. -/
def nonSystemPass (ms : List Msg) : List Msg :=
  ms.filterMap (fun m =>
    if m.role = "user" then some ⟨"user", m.content⟩
    else if m.role = "assistant" then some ⟨"assistant", m.content⟩
    else none)

/-- Invariant of the conversion loop: once `converted_messages` starts with a
user-role entry, every later system message merges into that entry and every
later user/assistant message is appended behind `rest`. -/
theorem convertGo_user_head (ms : List Msg) : ∀ (c : String) (rest : List Msg),
    convertGo ms (⟨"user", c⟩ :: rest) =
      ⟨"user", sysFold ms c⟩ :: (rest ++ nonSystemPass ms) := by
  induction ms with
  | nil =>
    intro c rest
    simp [convertGo, sysFold, nonSystemPass]
  | cons m ms ih =>
    intro c rest
    by_cases hu : m.role = "user"
    · simp only [convertGo, hu, if_pos rfl]
      rw [show (⟨"user", c⟩ :: rest) ++ [⟨"user", m.content⟩]
            = (⟨"user", c⟩ : Msg) :: (rest ++ [⟨"user", m.content⟩]) from rfl]
      rw [ih]
      simp [sysFold, nonSystemPass, hu]
    · by_cases ha : m.role = "assistant"
      · simp only [convertGo, hu, ha, if_neg, if_pos rfl, reduceIte]
        rw [show (⟨"user", c⟩ :: rest) ++ [⟨"assistant", m.content⟩]
              = (⟨"user", c⟩ : Msg) :: (rest ++ [⟨"assistant", m.content⟩]) from rfl]
        rw [ih]
        simp [sysFold, nonSystemPass, hu, ha]
      · by_cases hs : m.role = "system"
        · simp only [convertGo, hu, ha, hs, reduceIte, if_pos rfl]
          rw [ih]
          simp [sysFold, nonSystemPass, hu, ha, hs]
        · simp only [convertGo, hu, ha, hs, reduceIte]
          rw [ih]
          simp [sysFold, nonSystemPass, hu, ha, hs]

/-- C1 counterexample helper statement is proved below; here is the behaviour
on a sequence that starts with a user message. -/
theorem convertMessages_user_first (c : String) (ms : List Msg) :
    convertMessages (⟨"user", c⟩ :: ms) = ⟨"user", sysFold ms c⟩ :: nonSystemPass ms := by
  have h := convertGo_user_head ms c []
  simpa [convertMessages, convertGo] using h

/-- Behaviour on a sequence that starts with a system message: the system
message opens a synthetic user-role entry which then absorbs every later
system message. -/
theorem convertMessages_system_first (s : String) (ms : List Msg) :
    convertMessages (⟨"system", s⟩ :: ms) = ⟨"user", sysFold ms s⟩ :: nonSystemPass ms := by
  have h := convertGo_user_head ms s []
  simpa [convertMessages, convertGo] using h

/-! ## Shared validation helpers (`base.py`) -/

/-- `BaseProvider.validate_model_name`: rejects a non-string or empty model
name (the type rules out non-strings; emptiness is the live check). -/
def validate_model_name (model : String) : Option PyExc :=
  if model = "" then some (pyValueError "Model name must be a non-empty string.")
  else none

/-- The per-message loop of `BaseProvider._validate_messages`, carrying the
running index `i`.  The key-set check is enforced by the `Msg` type; the live
check is that `role` and `content` are non-empty after `.strip()`. -/
def validateMessagesAux : Nat → List Msg → Option PyExc
  | _, [] => none
  | i, m :: ms =>
    if pyStrip m.role = "" ∨ pyStrip m.content = "" then
      some (pyValueError
        ("Message " ++ toString i ++ " \x27role\x27 and \x27content\x27 must be non-empty strings."))
    else validateMessagesAux (i + 1) ms

/-- `BaseProvider._validate_messages`. -/
def validateMessages (messages : List Msg) : Option PyExc :=
  if messages = [] then
    some (pyValueError "Messages must be a non-empty list of dictionaries.")
  else validateMessagesAux 0 messages

/-- Keyword arguments of a `chat` call: an insertion-ordered mapping of
parameter names to opaque values. -/
abbrev Params := List (String × String)

/-- `BaseProvider._validate_common_params` with an allowed set supplied:
raises on the first key, in iteration order, that is not allowed. -/
def validate_common_params (params : Params) (allowed : List String) : Option PyExc :=
  match List.find? (fun kv => !(allowed.contains kv.1)) params with
  | some kv => some (pyValueError ("Unknown parameter: " ++ kv.1))
  | none => none

/-! ## Vendor response models and the OpenAI adapter (`openai_client.py`) -/

/-- The usage object of a native OpenAI response; `none` in a field models a
missing attribute, which `getattr(..., default=None)` turns into `None`. -/
structure OpenAIUsage where
  prompt_tokens : Option Int
  completion_tokens : Option Int
  total_tokens : Option Int
deriving DecidableEq, Repr

/-- A native OpenAI response: the `message.content` of each choice, and the
usage object (`none` when `response.usage` is itself `None`). -/
structure OpenAIResponse where
  choices : List String
  usage : Option OpenAIUsage
deriving DecidableEq, Repr

/-- `getattr(response.usage, field, None)`: total and never raising, also
when the usage object is `None` or lacks the attribute. -/
def getattrD (u : Option OpenAIUsage) (f : OpenAIUsage → Option Int) : Option Int :=
  match u with
  | none => none
  | some u => f u

/-- The normalized response dict the adapters return (its `raw_response`
field, the untouched vendor object, is not modelled: no claim mentions it). -/
structure ChatResponse where
  provider : String
  model : String
  content : String
  usage : List (String × Option Int)
deriving DecidableEq, Repr

/-- The vendor client of the OpenAI adapter: an arbitrary function from the
native call shape to a native response or a raised exception. -/
abbrev OpenAIVendor := String → List Msg → Params → Except PyExc OpenAIResponse

/-- The allowed-parameter set of `OpenAIProvider.chat`. -/
def openai_allowed_params : List String :=
  ["max_tokens", "temperature", "top_p", "n", "stream", "stop", "presence_penalty",
   "frequency_penalty", "logit_bias", "user", "response_format", "seed", "tools"]

/-- `OpenAIProvider.chat`, parametrised by the vendor client.  Validation
happens before the `try` block; inside it, the vendor is invoked and the
response is translated (the translation itself is total); a vendor failure is
re-raised as `RuntimeError(f"OpenAI API error: {e}") from e`. -/
def OpenAIChat (vendor : OpenAIVendor) (model : String) (messages : List Msg)
    (kwargs : Params) : Except PyExc ChatResponse :=
  match validate_model_name model with
  | some e => .error e
  | none =>
  match validateMessages messages with
  | some e => .error e
  | none =>
  match validate_common_params kwargs openai_allowed_params with
  | some e => .error e
  | none =>
  match vendor model messages kwargs with
  | .error e => .error ⟨.runtimeError, "OpenAI API error: " ++ e.msg, some e.msg⟩
  | .ok response =>
    .ok { provider := "openai"
          model := model
          content := match response.choices with | [] => "" | c :: _ => c
          usage := [("prompt_tokens", getattrD response.usage (·.prompt_tokens)),
                    ("completion_tokens", getattrD response.usage (·.completion_tokens)),
                    ("total_tokens", getattrD response.usage (·.total_tokens))] }

/-! ## The Anthropic adapter (`anthropic_client.py`) -/

/-- The usage object of a native Anthropic response; `none` in a field
models a missing attribute (accessed without a `getattr` default, so it
raises `AttributeError`). -/
structure AnthropicUsage where
  input_tokens : Option Int
  output_tokens : Option Int
deriving DecidableEq, Repr

/-- A native Anthropic response: the `.text` of each content block, and the
usage object (`none` when the response lacks a usage attribute). -/
structure AnthropicResponse where
  content : List String
  usage : Option AnthropicUsage
deriving DecidableEq, Repr

/-- An attribute access with no default: raises `AttributeError` when the
attribute is missing. -/
def pyAttr (o : Option α) : Except PyExc α :=
  match o with
  | some v => .ok v
  | none => .error ⟨.attributeError, "attribute missing", none⟩

/-- The vendor client of the Anthropic adapter. -/
abbrev AnthropicVendor := String → List Msg → Params → Except PyExc AnthropicResponse

/-- The body of `AnthropicProvider.chat`'s `try` block: convert the messages
(total), invoke the vendor with the kwargs forwarded unchanged, then access
`response.content[0].text` (raising `IndexError` on an empty content list)
and `response.usage.input_tokens` / `output_tokens` (raising
`AttributeError` when missing). -/
def anthropicTryBody (vendor : AnthropicVendor) (model : String)
    (messages : List Msg) (kwargs : Params) : Except PyExc ChatResponse := do
  let anthropic_messages := convertMessages messages
  let response ← vendor model anthropic_messages kwargs
  let text ← (match response.content with
    | [] => Except.error ⟨.indexError, "list index out of range", none⟩
    | t :: _ => Except.ok t)
  let usage ← pyAttr response.usage
  let inTok ← pyAttr usage.input_tokens
  let outTok ← pyAttr usage.output_tokens
  return { provider := "anthropic"
           model := model
           content := text
           usage := [("input_tokens", some inTok), ("output_tokens", some outTok)] }

/-- `AnthropicProvider.chat`: validates only the messages (no model-name
check and no parameter allow-list), then runs the `try` block and re-raises
any failure as `Exception(f"Anthropic API error: {e}")` with no chained
cause. -/
def AnthropicChat (vendor : AnthropicVendor) (model : String) (messages : List Msg)
    (kwargs : Params) : Except PyExc ChatResponse :=
  match validateMessages messages with
  | some e => .error e
  | none =>
  match anthropicTryBody vendor model messages kwargs with
  | .ok r => .ok r
  | .error e => .error ⟨.exceptionBase, "Anthropic API error: " ++ e.msg, none⟩

/-! ## Registry, router and compatibility facade (`router.py`) -/

/-- The two registered adapter constructors. -/
inductive ProviderKind where
  | openai
  | anthropic
deriving DecidableEq, Repr

/-- `LLMRouter._PROVIDER_REGISTRY`: the insertion-ordered mapping from
lower-case backend name to adapter constructor. -/
def PROVIDER_REGISTRY : List (String × ProviderKind) :=
  [("openai", .openai), ("anthropic", .anthropic)]

/-- `LLMRouter._create_provider`, applied to the already-lower-cased name
stored by `__init__`: a registry miss raises `ValueError` whose message
interpolates `list(self._PROVIDER_REGISTRY.keys())`, which Python renders as
`[\x27openai\x27, \x27anthropic\x27]`. -/
def createProviderFromName (lowered : String) : Except PyExc ProviderKind :=
  match PROVIDER_REGISTRY.lookup lowered with
  | some cls => .ok cls
  | none => .error (pyValueError
      ("Unsupported provider: " ++ lowered ++
       ". Supported providers: [\x27openai\x27, \x27anthropic\x27]"))

/-- Router construction: `__init__` lower-cases the requested name, stores
the credentials, and calls `_create_provider`. -/
def createProvider (provider_name : String) : Except PyExc ProviderKind :=
  createProviderFromName (pyLower provider_name)

/-- A constructed `LLMRouter`: the stored lower-cased name, the opaque
credentials, and the constructed adapter. -/
structure LLMRouterS where
  provider_name : String
  api_key : String
  provider : ProviderKind
deriving DecidableEq, Repr

/-- `LLMRouter.__init__`. -/
def routerInit (provider_name api_key : String) : Except PyExc LLMRouterS :=
  match createProvider provider_name with
  | .ok p => .ok ⟨pyLower provider_name, api_key, p⟩
  | .error e => .error e

/-- Dispatch of `LLMRouter.chat` to the constructed adapter. -/
def providerChat (vendorO : OpenAIVendor) (vendorA : AnthropicVendor) :
    ProviderKind → String → List Msg → Params → Except PyExc ChatResponse
  | .openai => OpenAIChat vendorO
  | .anthropic => AnthropicChat vendorA

/-- `LLMRouter.chat`: pure forwarding to the adapter. -/
def routerChat (vendorO : OpenAIVendor) (vendorA : AnthropicVendor)
    (r : LLMRouterS) (model : String) (messages : List Msg) (kwargs : Params) :
    Except PyExc ChatResponse :=
  providerChat vendorO vendorA r.provider model messages kwargs

/-- Construct a router and call `chat` on it — the direct, non-facade call
path `LLMRouter(name, key).chat(model, messages, params)`. -/
def routerCall (vendorO : OpenAIVendor) (vendorA : AnthropicVendor)
    (name key model : String) (messages : List Msg) (kwargs : Params) :
    Except PyExc ChatResponse :=
  match routerInit name key with
  | .ok r => routerChat vendorO vendorA r model messages kwargs
  | .error e => .error e

/-- The `ChatCompletions` accessor object: a back-reference to the router. -/
structure ChatCompletionsS where
  router : LLMRouterS
deriving DecidableEq, Repr

/-- `ChatCompletions.create`: forwards straight to `router.chat`. -/
def chatCompletionsCreate (vendorO : OpenAIVendor) (vendorA : AnthropicVendor)
    (cc : ChatCompletionsS) (model : String) (messages : List Msg) (kwargs : Params) :
    Except PyExc ChatResponse :=
  routerChat vendorO vendorA cc.router model messages kwargs

/-- A constructed `LLMClient` facade, holding the router built underneath. -/
structure LLMClientS where
  router : LLMRouterS
deriving DecidableEq, Repr

/-- `LLMClient.__init__`: constructs a router underneath. -/
def clientInit (provider_name api_key : String) : Except PyExc LLMClientS :=
  match routerInit provider_name api_key with
  | .ok r => .ok ⟨r⟩
  | .error e => .error e

/-- The `LLMClient.chat` property: a fresh `ChatCompletions` over the held
router. -/
def clientChatProp (c : LLMClientS) : ChatCompletionsS := ⟨c.router⟩

/-- The `ChatCompletions.completions` property: returns `self`. -/
def completionsProp (cc : ChatCompletionsS) : ChatCompletionsS := cc

/-- The full facade call path
`LLMClient(name, key).chat.completions.create(model, messages, params)`. -/
def clientCall (vendorO : OpenAIVendor) (vendorA : AnthropicVendor)
    (name key model : String) (messages : List Msg) (kwargs : Params) :
    Except PyExc ChatResponse :=
  match clientInit name key with
  | .ok c => chatCompletionsCreate vendorO vendorA
      (completionsProp (clientChatProp c)) model messages kwargs
  | .error e => .error e

/-! ## Shared helper lemmas -/

/-- The per-message validation loop accepts any list all of whose messages
have role and content non-empty after stripping — the roles themselves are
never inspected. -/
theorem validateMessagesAux_none (ms : List Msg) :
    ∀ i, (∀ m ∈ ms, pyStrip m.role ≠ "" ∧ pyStrip m.content ≠ "") →
      validateMessagesAux i ms = none := by
  induction ms with
  | nil => intro i _; rfl
  | cons m ms ih =>
    intro i h
    have hm := h m (List.mem_cons_self m ms)
    have hrest : ∀ x ∈ ms, pyStrip x.role ≠ "" ∧ pyStrip x.content ≠ "" := by
      intro x hx
      exact h x (List.mem_cons_of_mem m hx)
    have hcond : ¬(pyStrip m.role = "" ∨ pyStrip m.content = "") := by
      simp [hm.1, hm.2]
    simp only [validateMessagesAux, if_neg hcond]
    exact ih (i + 1) hrest

/-! ## Claim theorems -/

/-- C1 counterexample: on the spec's own end-to-end instance
`[{system, "Be terse."}, {user, "Hi"}]` the conversion does **not** merge the
system content into the user message — the system message is processed first,
while `converted_messages` is still empty, so it becomes its own user-role
entry and the real user message follows separately. -/
theorem C1_counterexample :
    convertMessages [⟨"system", "Be terse."⟩, ⟨"user", "Hi"⟩]
      = [⟨"user", "Be terse."⟩, ⟨"user", "Hi"⟩]
    ∧ convertMessages [⟨"system", "Be terse."⟩, ⟨"user", "Hi"⟩]
      ≠ [⟨"user", "Be terse.\n\nHi"⟩] := by
  exact ⟨rfl, by decide⟩

/-- C1 (amended): merging into the first user message happens only when the
sequence *starts* with a user-role message; then every system message's
content is prepended to that first message's content in processing order
(later system messages outermost), with a blank-line separator each, the
first message keeps its position, and all other non-system messages pass
through unchanged in order.  A system message that arrives before any user
message instead becomes a standalone user-role entry, so the spec's instance
`[{system, "Be terse."}, {user, "Hi"}]` yields two separate user messages. -/
theorem C1_system_merge_only_into_leading_user :
    (∀ (c : String) (ms : List Msg),
      convertMessages (⟨"user", c⟩ :: ms) = ⟨"user", sysFold ms c⟩ :: nonSystemPass ms)
    ∧ convertMessages [⟨"system", "Be terse."⟩, ⟨"user", "Hi"⟩]
      = [⟨"user", "Be terse."⟩, ⟨"user", "Hi"⟩] :=
  ⟨convertMessages_user_first, rfl⟩

/-- C2 counterexample: with two system messages and no user message the
conversion joins the system contents in *reverse* order
(`[system "A", system "B"]` becomes `"B\n\nA"`, not `"A\n\nB"`), and when an
assistant message precedes the system message the synthesised user-role
entry is not leading. -/
theorem C2_counterexample :
    convertMessages [⟨"system", "A"⟩, ⟨"system", "B"⟩] = [⟨"user", "B\n\nA"⟩]
    ∧ convertMessages [⟨"system", "A"⟩, ⟨"system", "B"⟩] ≠ [⟨"user", "A\n\nB"⟩]
    ∧ convertMessages [⟨"assistant", "X"⟩, ⟨"system", "S"⟩]
      = [⟨"assistant", "X"⟩, ⟨"user", "S"⟩] := by
  exact ⟨rfl, by decide, rfl⟩

/-- C2 (amended): for every sequence that *starts* with a system-role
message and contains no user-role message, the conversion produces exactly
one user-role message, in leading position, whose content is the system
contents joined by blank-line separators in **reverse** order (each later
system message prepends itself), followed by the assistant messages
unchanged. -/
theorem C2_system_only_translation (s : String) (ms : List Msg)
    (h : ∀ m ∈ ms, m.role ≠ "user") :
    convertMessages (⟨"system", s⟩ :: ms) = ⟨"user", sysFold ms s⟩ :: nonSystemPass ms
    ∧ ∀ m ∈ nonSystemPass ms, m.role = "assistant" := by
  refine ⟨convertMessages_system_first s ms, ?_⟩
  intro m hm
  simp only [nonSystemPass, List.mem_filterMap] at hm
  obtain ⟨a, ha, hfa⟩ := hm
  by_cases hu : a.role = "user"
  · exact absurd hu (h a ha)
  · by_cases hass : a.role = "assistant"
    · rw [if_neg hu, if_pos hass, Option.some.injEq] at hfa
      rw [← hfa]
    · simp [hu, hass] at hfa

/-- C2 witness: the amended statement evaluated on `[system "A", system "B"]`. -/
theorem C2_system_only_translation_witness :
    (∀ m ∈ [(⟨"system", "B"⟩ : Msg)], m.role ≠ "user")
    ∧ convertMessages [⟨"system", "A"⟩, ⟨"system", "B"⟩] = [⟨"user", "B\n\nA"⟩] := by
  refine ⟨by decide, ?_⟩
  have h := (C2_system_only_translation "A" [⟨"system", "B"⟩] (by decide)).1
  simpa [sysFold, nonSystemPass] using h

/-- C3 counterexample: the Anthropic adapter accepts a parameters mapping
with the unknown key `bogus` and invokes the vendor (an accepting vendor
makes the call succeed; a failing vendor changes the outcome, so the vendor
call really happens). -/
theorem C3_counterexample :
    AnthropicChat (fun _ _ _ => .ok ⟨["hello"], some ⟨some 1, some 2⟩⟩)
        "claude-3" [⟨"user", "Hi"⟩] [("bogus", "1")]
      = .ok ⟨"anthropic", "claude-3", "hello",
          [("input_tokens", some 1), ("output_tokens", some 2)]⟩
    ∧ AnthropicChat (fun _ _ _ => .error ⟨.vendorNative, "boom", none⟩)
        "claude-3" [⟨"user", "Hi"⟩] [("bogus", "1")]
      = .error ⟨.exceptionBase, "Anthropic API error: boom", none⟩ := by
  exact ⟨rfl, rfl⟩

/-- C3 (amended): only `OpenAIProvider.chat` enforces an allowed-parameter
set — it rejects the first unknown key with `ValueError("Unknown parameter:
<key>")` for **every** vendor client, so the vendor is never consulted.
`AnthropicProvider.chat` has no allowed-parameter set at all: it forwards the
parameters mapping unchanged to the vendor call. -/
theorem C3_param_allowlist :
    (∀ (vendor : OpenAIVendor) (model : String) (messages : List Msg) (kwargs : Params)
        (kv : String × String),
      validate_model_name model = none →
      validateMessages messages = none →
      List.find? (fun x => !(openai_allowed_params.contains x.1)) kwargs = some kv →
      OpenAIChat vendor model messages kwargs
        = .error (pyValueError ("Unknown parameter: " ++ kv.1)))
    ∧ (∀ (vendor : AnthropicVendor) (model : String) (messages : List Msg) (kwargs : Params)
        (t : String) (ts : List String) (it ot : Int),
      validateMessages messages = none →
      vendor model (convertMessages messages) kwargs = .ok ⟨t :: ts, some ⟨some it, some ot⟩⟩ →
      AnthropicChat vendor model messages kwargs
        = .ok ⟨"anthropic", model, t,
            [("input_tokens", some it), ("output_tokens", some ot)]⟩) := by
  constructor
  · intro vendor model messages kwargs kv hm hmsg hfind
    simp only [OpenAIChat, hm, hmsg, validate_common_params, hfind]
  · intro vendor model messages kwargs t ts it ot hmsg hvendor
    simp only [AnthropicChat, hmsg, anthropicTryBody, hvendor]
    rfl

/-- C3 witness: the amended statement at concrete inputs — OpenAI rejects
the key `bogus` whatever the vendor would do, Anthropic forwards it. -/
theorem C3_param_allowlist_witness :
    OpenAIChat (fun _ _ _ => .error ⟨.vendorNative, "never reached", none⟩)
        "gpt-4" [⟨"user", "hi"⟩] [("bogus", "1")]
      = .error (pyValueError "Unknown parameter: bogus")
    ∧ AnthropicChat (fun _ _ _ => .ok ⟨["hello"], some ⟨some 1, some 2⟩⟩)
        "claude-3" [⟨"user", "hi"⟩] [("bogus", "1")]
      = .ok ⟨"anthropic", "claude-3", "hello",
          [("input_tokens", some 1), ("output_tokens", some 2)]⟩ :=
  ⟨C3_param_allowlist.1 _ "gpt-4" [⟨"user", "hi"⟩] [("bogus", "1")] ("bogus", "1")
      (by decide) (by decide) (by decide),
   C3_param_allowlist.2 _ "claude-3" [⟨"user", "hi"⟩] [("bogus", "1")] "hello" [] 1 2
      (by decide) rfl⟩

/-- C4 counterexample: on the same vendor failure the two adapters raise
*different* exception classes (`RuntimeError` vs bare `Exception`), and the
Anthropic wrapper carries no chained cause. -/
theorem C4_counterexample :
    OpenAIChat (fun _ _ _ => .error ⟨.vendorNative, "rate limited", none⟩)
        "gpt-4" [⟨"user", "hi"⟩] []
      = .error ⟨.runtimeError, "OpenAI API error: rate limited", some "rate limited"⟩
    ∧ AnthropicChat (fun _ _ _ => .error ⟨.vendorNative, "rate limited", none⟩)
        "claude-3" [⟨"user", "hi"⟩] []
      = .error ⟨.exceptionBase, "Anthropic API error: rate limited", none⟩
    ∧ PyExcKind.runtimeError ≠ PyExcKind.exceptionBase
    ∧ (none : Option String) ≠ some "rate limited" := by
  exact ⟨rfl, rfl, by decide, by decide⟩

/-- C4 (amended): each adapter catches any vendor failure and re-raises a
wrapper carrying the original message, but the wrappers differ: OpenAI
raises `RuntimeError("OpenAI API error: <msg>") from e` (cause chained),
Anthropic raises `Exception("Anthropic API error: <msg>")` with no chained
cause — so the two adapters do not share one normalized error kind beyond
the base `Exception`. -/
theorem C4_failure_wrapping :
    (∀ (vendor : OpenAIVendor) (model : String) (messages : List Msg) (kwargs : Params)
        (e : PyExc),
      validate_model_name model = none →
      validateMessages messages = none →
      validate_common_params kwargs openai_allowed_params = none →
      vendor model messages kwargs = .error e →
      OpenAIChat vendor model messages kwargs
        = .error ⟨.runtimeError, "OpenAI API error: " ++ e.msg, some e.msg⟩)
    ∧ (∀ (vendor : AnthropicVendor) (model : String) (messages : List Msg) (kwargs : Params)
        (e : PyExc),
      validateMessages messages = none →
      vendor model (convertMessages messages) kwargs = .error e →
      AnthropicChat vendor model messages kwargs
        = .error ⟨.exceptionBase, "Anthropic API error: " ++ e.msg, none⟩) := by
  constructor
  · intro vendor model messages kwargs e hm hmsg hp hvendor
    simp only [OpenAIChat, hm, hmsg, hp, hvendor]
  · intro vendor model messages kwargs e hmsg hvendor
    simp only [AnthropicChat, hmsg, anthropicTryBody, hvendor]
    rfl

/-- C4 witness: the amended statement at a concrete vendor failure. -/
theorem C4_failure_wrapping_witness :
    OpenAIChat (fun _ _ _ => .error ⟨.vendorNative, "quota", none⟩)
        "gpt-4" [⟨"user", "hi"⟩] []
      = .error ⟨.runtimeError, "OpenAI API error: quota", some "quota"⟩
    ∧ AnthropicChat (fun _ _ _ => .error ⟨.vendorNative, "quota", none⟩)
        "claude-3" [⟨"user", "hi"⟩] []
      = .error ⟨.exceptionBase, "Anthropic API error: quota", none⟩ :=
  ⟨C4_failure_wrapping.1 _ "gpt-4" [⟨"user", "hi"⟩] [] ⟨.vendorNative, "quota", none⟩
      (by decide) (by decide) (by decide) rfl,
   C4_failure_wrapping.2 _ "claude-3" [⟨"user", "hi"⟩] [] ⟨.vendorNative, "quota", none⟩
      (by decide) rfl⟩

/-- C5 counterexample: when the Anthropic vendor returns a response with no
content segments, `chat` does not return an empty-content response — the
`response.content[0]` access raises `IndexError`, which the adapter wraps
and re-raises. -/
theorem C5_counterexample :
    AnthropicChat (fun _ _ _ => .ok ⟨[], none⟩) "claude-3" [⟨"user", "hello"⟩] []
      = .error ⟨.exceptionBase, "Anthropic API error: list index out of range", none⟩ := by
  exact rfl

/-- C5 (amended): the OpenAI adapter does return content `""` for an empty
choices list and defaults every missing usage counter to `None` without
raising; the Anthropic adapter instead raises a wrapped error whenever the
vendor response has no content segments. -/
theorem C5_empty_response :
    (∀ (vendor : OpenAIVendor) (model : String) (messages : List Msg) (kwargs : Params)
        (u : Option OpenAIUsage),
      validate_model_name model = none →
      validateMessages messages = none →
      validate_common_params kwargs openai_allowed_params = none →
      vendor model messages kwargs = .ok ⟨[], u⟩ →
      OpenAIChat vendor model messages kwargs
        = .ok ⟨"openai", model, "",
            [("prompt_tokens", getattrD u (·.prompt_tokens)),
             ("completion_tokens", getattrD u (·.completion_tokens)),
             ("total_tokens", getattrD u (·.total_tokens))]⟩)
    ∧ (∀ (vendor : AnthropicVendor) (model : String) (messages : List Msg) (kwargs : Params)
        (u : Option AnthropicUsage),
      validateMessages messages = none →
      vendor model (convertMessages messages) kwargs = .ok ⟨[], u⟩ →
      AnthropicChat vendor model messages kwargs
        = .error ⟨.exceptionBase, "Anthropic API error: list index out of range", none⟩) := by
  constructor
  · intro vendor model messages kwargs u hm hmsg hp hvendor
    simp only [OpenAIChat, hm, hmsg, hp, hvendor]
  · intro vendor model messages kwargs u hmsg hvendor
    simp only [AnthropicChat, hmsg, anthropicTryBody, hvendor]
    rfl

/-- C5 witness: the amended statement at concrete empty vendor responses. -/
theorem C5_empty_response_witness :
    OpenAIChat (fun _ _ _ => .ok ⟨[], none⟩) "gpt-4" [⟨"user", "hi"⟩] []
      = .ok ⟨"openai", "gpt-4", "",
          [("prompt_tokens", none), ("completion_tokens", none), ("total_tokens", none)]⟩
    ∧ AnthropicChat (fun _ _ _ => .ok ⟨[], some ⟨some 3, some 4⟩⟩)
        "claude-3" [⟨"user", "hi"⟩] []
      = .error ⟨.exceptionBase, "Anthropic API error: list index out of range", none⟩ :=
  ⟨C5_empty_response.1 _ "gpt-4" [⟨"user", "hi"⟩] [] none
      (by decide) (by decide) (by decide) rfl,
   C5_empty_response.2 _ "claude-3" [⟨"user", "hi"⟩] [] (some ⟨some 3, some 4⟩)
      (by decide) rfl⟩

/-- C6 counterexample: a message with the unrecognised role `banana` passes
`_validate_messages`, the OpenAI adapter forwards it to the vendor and
returns the vendor's answer, and the Anthropic conversion silently drops
it — no `InvalidArgument` is raised anywhere. -/
theorem C6_counterexample :
    validateMessages [⟨"banana", "hi"⟩] = none
    ∧ OpenAIChat (fun _ _ _ => .ok ⟨["ok"], none⟩) "gpt-4" [⟨"banana", "hi"⟩] []
      = .ok ⟨"openai", "gpt-4", "ok",
          [("prompt_tokens", none), ("completion_tokens", none), ("total_tokens", none)]⟩
    ∧ convertMessages [⟨"banana", "hi"⟩] = [] := by
  exact ⟨rfl, rfl, rfl⟩

/-- C6 (amended): message validation never inspects the role value — any
message whose role and content are non-empty after stripping passes, so a
role outside {system, user, assistant} is not rejected; the OpenAI adapter
then forwards it to the vendor and the Anthropic conversion drops it
silently. -/
theorem C6_no_role_restriction :
    (∀ (messages : List Msg), messages ≠ [] →
      (∀ m ∈ messages, pyStrip m.role ≠ "" ∧ pyStrip m.content ≠ "") →
      validateMessages messages = none)
    ∧ (∀ (role content : String),
      role ≠ "user" → role ≠ "assistant" → role ≠ "system" →
      convertMessages [⟨role, content⟩] = []) := by
  constructor
  · intro messages hne h
    simp only [validateMessages, if_neg hne]
    exact validateMessagesAux_none messages 0 h
  · intro role content hu ha hs
    simp [convertMessages, convertGo, hu, ha, hs]

/-- C6 witness: the amended statement at the role `banana` (accepted by
validation) and the role `tool` (dropped by the conversion). -/
theorem C6_no_role_restriction_witness :
    validateMessages [⟨"banana", "hi"⟩] = none
    ∧ convertMessages [⟨"tool", "x"⟩] = [] :=
  ⟨C6_no_role_restriction.1 [⟨"banana", "hi"⟩] (by decide) (by decide),
   C6_no_role_restriction.2 "tool" "x" (by decide) (by decide) (by decide)⟩

/-- C7: router construction looks the backend name up lower-cased (so any
case variant of a registered name constructs), and an unregistered name
fails with an error whose message enumerates the registered names — in
particular the message for `invalid` contains both `openai` and
`anthropic`. -/
theorem C7_registry_lookup :
    (∀ (name : String) (p : ProviderKind),
      PROVIDER_REGISTRY.lookup (pyLower name) = some p → createProvider name = .ok p)
    ∧ (∀ (name : String),
      PROVIDER_REGISTRY.lookup (pyLower name) = none →
      createProvider name = .error (pyValueError
        ("Unsupported provider: " ++ pyLower name ++
         ". Supported providers: [\x27openai\x27, \x27anthropic\x27]")))
    ∧ createProvider "OpenAI" = .ok .openai
    ∧ createProvider "ANTHROPIC" = .ok .anthropic
    ∧ createProvider "invalid" = .error (pyValueError
        "Unsupported provider: invalid. Supported providers: [\x27openai\x27, \x27anthropic\x27]")
    ∧ (∃ a b : String,
        "Unsupported provider: invalid. Supported providers: [\x27openai\x27, \x27anthropic\x27]"
          = a ++ "openai" ++ b)
    ∧ (∃ a b : String,
        "Unsupported provider: invalid. Supported providers: [\x27openai\x27, \x27anthropic\x27]"
          = a ++ "anthropic" ++ b) := by
  refine ⟨?_, ?_, rfl, rfl, rfl, ?_, ?_⟩
  · intro name p h
    simp [createProvider, createProviderFromName, h]
  · intro name h
    simp [createProvider, createProviderFromName, h, pyValueError]
  · exact ⟨"Unsupported provider: invalid. Supported providers: [\x27",
      "\x27, \x27anthropic\x27]", by decide⟩
  · exact ⟨"Unsupported provider: invalid. Supported providers: [\x27openai\x27, \x27",
      "\x27]", by decide⟩

/-- C7 witness: the lookup clauses applied at the concrete names
`Anthropic` (a case variant of a registered name) and `invalid`. -/
theorem C7_registry_lookup_witness :
    createProvider "Anthropic" = .ok .anthropic
    ∧ createProvider "invalid" = .error (pyValueError
        "Unsupported provider: invalid. Supported providers: [\x27openai\x27, \x27anthropic\x27]") :=
  ⟨C7_registry_lookup.1 "Anthropic" .anthropic (by decide),
   C7_registry_lookup.2.1 "invalid" (by decide)⟩

/-- C8: for both adapters, a `chat` call with an empty messages sequence
fails with `ValueError` for every vendor client — so no vendor call is ever
made (the OpenAI adapter reports the model-name error first when the model
is also empty, the messages error otherwise; the Anthropic adapter does not
validate the model name at all). -/
theorem C8_empty_messages :
    (∀ (vendor : OpenAIVendor) (model : String) (kwargs : Params),
      OpenAIChat vendor model [] kwargs = .error (pyValueError
        (if model = "" then "Model name must be a non-empty string."
         else "Messages must be a non-empty list of dictionaries.")))
    ∧ (∀ (vendor : AnthropicVendor) (model : String) (kwargs : Params),
      AnthropicChat vendor model [] kwargs
        = .error (pyValueError "Messages must be a non-empty list of dictionaries.")) := by
  constructor
  · intro vendor model kwargs
    by_cases h : model = "" <;>
      simp [OpenAIChat, validate_model_name, validateMessages, h]
  · intro vendor model kwargs
    simp [AnthropicChat, validateMessages]

/-- C9: the compatibility facade path
`LLMClient(name, key).chat.completions.create(model, messages, params)` is
extensionally equal to the direct router path
`LLMRouter(name, key).chat(model, messages, params)` — same result on
success and the very same error otherwise, for every pair of vendor
clients. -/
theorem C9_facade_equals_router :
    ∀ (vendorO : OpenAIVendor) (vendorA : AnthropicVendor)
      (name key model : String) (messages : List Msg) (kwargs : Params),
      clientCall vendorO vendorA name key model messages kwargs
        = routerCall vendorO vendorA name key model messages kwargs := by
  intro vendorO vendorA name key model messages kwargs
  simp only [clientCall, clientInit, routerCall]
  cases routerInit name key <;> rfl

/-- C10: a message whose role or content strips to the empty string is
rejected by `_validate_messages` with exactly the same `ValueError` as an
empty string at the same index — the check is non-emptiness after
`.strip()`, strictly stronger than non-emptiness. -/
theorem C10_whitespace_only_rejected :
    (∀ (i : Nat) (role content : String) (rest : List Msg),
      pyStrip role = "" ∨ pyStrip content = "" →
      validateMessagesAux i (⟨role, content⟩ :: rest)
        = some (pyValueError
            ("Message " ++ toString i ++
             " \x27role\x27 and \x27content\x27 must be non-empty strings.")))
    ∧ (∀ (role content : String) (rest : List Msg),
      pyStrip content = "" →
      validateMessages (⟨role, content⟩ :: rest) = validateMessages (⟨role, ""⟩ :: rest)) := by
  constructor
  · intro i role content rest h
    simp only [validateMessagesAux]
    rw [if_pos h]
  · intro role content rest h
    have hne : ((⟨role, content⟩ : Msg) :: rest) ≠ [] := by simp
    have hne2 : ((⟨role, ""⟩ : Msg) :: rest) ≠ [] := by simp
    simp only [validateMessages, if_neg hne, if_neg hne2, validateMessagesAux]
    rw [if_pos (Or.inr h), if_pos (Or.inr (show pyStrip "" = "" from rfl))]

/-- C10 witness: the whitespace-only content `"   "` is rejected at index 0
with the same error as the empty content. -/
theorem C10_whitespace_only_rejected_witness :
    validateMessagesAux 0 [⟨"user", "   "⟩]
      = some (pyValueError "Message 0 \x27role\x27 and \x27content\x27 must be non-empty strings.")
    ∧ validateMessages [⟨"user", "   "⟩] = validateMessages [⟨"user", ""⟩] :=
  ⟨C10_whitespace_only_rejected.1 0 "user" "   " [] (Or.inr (by decide)),
   C10_whitespace_only_rejected.2 "user" "   " [] (by decide)⟩

end LLMRouterSpec
